import Mathlib

/-!
Verification of the convoy motion-detector module (`motion_detector.py`).

The module is a single Python class `MotionDetector`.  We embed its shared
state and every operation the specification's claims touch as pure Lean
functions.  Conventions of the embedding:

* The shared mutable fields of the object (`driving_mode`, `motion_detected`,
  `brake_lights_on`, `running`, `log_messages`, `vehicle_id`) become the
  record `VState`.
* Every method becomes a function `VState → ... → Eff` where
  `Eff = VState × published × printed`: the updated state, the list of
  `(topic, message)` pairs handed to `lcm.publish` (in order), and the list
  of lines written to the console (in order).  `log_event` both appends to
  `log_messages` and prints the entry, exactly as in the source.
* Timestamps are integer microseconds throughout.  The source converts a
  received microsecond timestamp to float seconds and back to microseconds
  when relaying (`msg.timestamp / 1000000.0` then `int(timestamp * 1000000)`);
  this round trip is modelled as the identity on the integer value.
* Wall-clock formatting (the `datetime.now().strftime` prefix of log lines
  and brake prints) is abstracted away: a log or console entry is modelled by
  its message text.
-/

/-- LCM message `heartbeat_t` {timestamp, vehicle_id}. -/
structure heartbeat_t where
  timestamp : Int
  vehicle_id : Int
deriving DecidableEq

/-- LCM message `warning_t` {timestamp, vehicle_id, danger_detected, description}. -/
structure warning_t where
  timestamp : Int
  vehicle_id : Int
  danger_detected : Bool
  description : String
deriving DecidableEq

/-- LCM message `mode_t` {timestamp, vehicle_id, mode, mode_description}. -/
structure mode_t where
  timestamp : Int
  vehicle_id : Int
  mode : Int
  mode_description : String
deriving DecidableEq

/-- LCM message `status_t`. -/
structure status_t where
  timestamp : Int
  vehicle_id : Int
  driving_mode : Int
  motion_detected : Bool
  brake_lights_on : Bool
  system_running : Bool
  status_message : String
deriving DecidableEq

/-- A published message (payload of some `lcm.publish` call). -/
inductive Msg where
  | heartbeat : heartbeat_t → Msg
  | warning : warning_t → Msg
  | mode : mode_t → Msg
  | status : status_t → Msg
deriving DecidableEq

/-- The shared mutable state of a `MotionDetector` instance: the fields set in
`MotionDetector.__init__` that the protocol operations read or write. -/
structure VState where
  vehicle_id : Int
  driving_mode : Int
  motion_detected : Bool
  brake_lights_on : Bool
  running : Bool
  log_messages : List String
deriving DecidableEq

/-- Result of one operation: updated state, published `(topic, message)`
pairs in publish order, and console lines in print order. -/
abbrev Eff := VState × List (String × Msg) × List String

/-- Sequencing of two effectful steps: run `f` on the state left by `r` and
concatenate the published messages and printed lines in order. -/
def seqE (r : Eff) (f : VState → Eff) : Eff :=
  let r2 := f r.1
  (r2.1, r.2.1 ++ r2.2.1, r.2.2 ++ r2.2.2)

/-- `MotionDetector.__init__` (state fields only): mode 0, no motion, brake
lights off, not running, empty log. -/
def initState (vid : Int) : VState :=
  { vehicle_id := vid
    driving_mode := 0
    motion_detected := false
    brake_lights_on := false
    running := false
    log_messages := [] }

/-- `log_event`: appends the entry to `self.log_messages` and prints it. -/
def log_event (s : VState) (message : String) : Eff :=
  ({ s with log_messages := s.log_messages ++ [message] }, [], [message])

/-- `turn_on_brake_lights`: guarded flip; prints `BRAKE LIGHTS ON` only on a
false→true transition.  Note: it prints, it does not call `log_event`. -/
def turn_on_brake_lights (s : VState) : Eff :=
  if s.brake_lights_on then (s, [], [])
  else ({ s with brake_lights_on := true }, [], ["BRAKE LIGHTS ON"])

/-- `turn_off_brake_lights`: guarded flip; prints `BRAKE LIGHTS OFF` only on a
true→false transition.  Note: it prints, it does not call `log_event`. -/
def turn_off_brake_lights (s : VState) : Eff :=
  if s.brake_lights_on then ({ s with brake_lights_on := false }, [], ["BRAKE LIGHTS OFF"])
  else (s, [], [])

/-- `send_warning_message(timestamp, description)`: publishes a `warning_t`
with the local vehicle id and `danger_detected=True` on topic WARNING, then
logs.  `timestamp` is in microseconds (the source's seconds↔µs float
conversion is modelled as the identity). -/
def send_warning_message (s : VState) (timestamp : Int) (description : String) : Eff :=
  let w : warning_t :=
    { timestamp := timestamp
      vehicle_id := s.vehicle_id
      danger_detected := true
      description := description }
  let vid := s.vehicle_id
  seqE (s, [("WARNING", Msg.warning w)], [])
    (fun s1 => log_event s1 s!"Warning message sent from vehicle {vid}: {timestamp}")

/-- `handle_warning_message(timestamp)` (mode-2 reaction to a received
warning): brake on, relay a warning with description `"Warning relayed"`,
log. -/
def handle_warning_message (s : VState) (timestamp : Int) : Eff :=
  if s.driving_mode = 2 then
    seqE (seqE (turn_on_brake_lights s)
      (fun s1 => send_warning_message s1 timestamp "Warning relayed"))
      (fun s2 => log_event s2 s!"Warning received and repeated: {timestamp}")
  else (s, [], [])

/-- `_handle_warning_message` on a successfully decoded `warning_t`: drop
self-originated messages, otherwise log receipt and, in mode 2, run
`handle_warning_message`. -/
def warning_arrival (s : VState) (msg : warning_t) : Eff :=
  if msg.vehicle_id ≠ s.vehicle_id then
    let mvid := msg.vehicle_id
    let desc := msg.description
    seqE (log_event s s!"Received warning from vehicle {mvid}: {desc}")
      (fun s1 =>
        if s1.driving_mode = 2 then handle_warning_message s1 msg.timestamp
        else (s1, [], []))
  else (s, [], [])

/-- `_handle_mode_message` on a successfully decoded `mode_t`: drop
self-originated messages, otherwise log informationally only. -/
def mode_arrival (s : VState) (msg : mode_t) : Eff :=
  if msg.vehicle_id ≠ s.vehicle_id then
    let mvid := msg.vehicle_id
    let m := msg.mode
    let desc := msg.mode_description
    log_event s s!"Vehicle {mvid} changed mode to {m}: {desc}"
  else (s, [], [])

/-- `mode_names = ["Single Vehicle", "Head in Convoy", "In Convoy"]`. -/
def mode_names : List String := ["Single Vehicle", "Head in Convoy", "In Convoy"]

/-- `set_driving_mode(mode)`: if `mode in [0, 1, 2]`, update the mode field,
publish a `mode_t` on topic MODE, log the transition, print a confirmation;
otherwise only print `Invalid driving mode`. -/
def set_driving_mode (s : VState) (mode : Int) (now : Int) : Eff :=
  if mode = 0 ∨ mode = 1 ∨ mode = 2 then
    let old_mode := s.driving_mode
    let s1 := { s with driving_mode := mode }
    let name := mode_names.getD mode.toNat ""
    let m : mode_t :=
      { timestamp := now
        vehicle_id := s.vehicle_id
        mode := mode
        mode_description := name }
    seqE (seqE (s1, [("MODE", Msg.mode m)], [])
      (fun s2 => log_event s2 s!"Driving mode changed from {old_mode} to {mode} ({name})"))
      (fun s3 => (s3, [], [s!"Driving mode set to: {mode} ({name})"]))
  else (s, [], [s!"Invalid driving mode: {mode}"])

/-- One iteration of the `send_heartbeat` loop body: if the mode is in
`[1, 2]`, publish a `heartbeat_t` with the current microsecond timestamp and
the local vehicle id on topic HEARTBEAT and log; otherwise do nothing. -/
def send_heartbeat_tick (s : VState) (now : Int) : Eff :=
  if s.driving_mode = 1 ∨ s.driving_mode = 2 then
    let hb : heartbeat_t := { timestamp := now, vehicle_id := s.vehicle_id }
    let vid := s.vehicle_id
    seqE (s, [("HEARTBEAT", Msg.heartbeat hb)], [])
      (fun s1 => log_event s1 s!"Heartbeat sent from vehicle {vid}: {now}")
  else (s, [], [])

/-- `handle_driving_mode`: mode-dependent reaction to the current
`motion_detected` flag.  Mode 0: brake on + log, or brake off.  Mode 1:
brake on + warning + log, or brake off.  Mode 2: `pass`. -/
def handle_driving_mode (s : VState) (now : Int) : Eff :=
  if s.driving_mode = 0 then
    if s.motion_detected then
      seqE (turn_on_brake_lights s)
        (fun s1 => log_event s1 "Mode 0: Object detected, brake lights ON")
    else turn_off_brake_lights s
  else if s.driving_mode = 1 then
    if s.motion_detected then
      seqE (seqE (turn_on_brake_lights s)
        (fun s1 => send_warning_message s1 now "Motion detected"))
        (fun s2 => log_event s2 "Mode 1: Object detected, brake lights ON, warning sent")
    else turn_off_brake_lights s
  else if s.driving_mode = 2 then (s, [], [])
  else (s, [], [])

/-- One iteration of the `process_frame` loop body for one sensed sample:
store the sample in `motion_detected`, then run `handle_driving_mode`. -/
def process_sample (s : VState) (sample : Bool) (now : Int) : Eff :=
  handle_driving_mode { s with motion_detected := sample } now

/-- `send_status_message`: publish a `status_t` snapshot on topic STATUS,
then log. -/
def send_status_message (s : VState) (now : Int) : Eff :=
  let st : status_t :=
    { timestamp := now
      vehicle_id := s.vehicle_id
      driving_mode := s.driving_mode
      motion_detected := s.motion_detected
      brake_lights_on := s.brake_lights_on
      system_running := s.running
      status_message := s!"Vehicle {s.vehicle_id} operational" }
  let vid := s.vehicle_id
  seqE (s, [("STATUS", Msg.status st)], [])
    (fun s1 => log_event s1 s!"Status message sent from vehicle {vid}")

/-- `show_status`: the `mode_names[self.driving_mode]` table lookup it
performs; `none` models an out-of-range index (an `IndexError` in the
source).  Read-only. -/
def show_status_lookup (s : VState) : Option String :=
  mode_names.get? s.driving_mode.toNat

/-- The operations that can touch the shared state, for stating state
invariants over arbitrary interleavings. -/
inductive Op where
  | setMode (m : Int) (now : Int)
  | sample (b : Bool) (now : Int)
  | hbTick (now : Int)
  | warnArrive (msg : warning_t)
  | modeArrive (msg : mode_t)
  | statusSend (now : Int)
deriving DecidableEq

/-- State component of one operation. -/
def step (s : VState) (op : Op) : VState :=
  match op with
  | Op.setMode m now => (set_driving_mode s m now).1
  | Op.sample b now => (process_sample s b now).1
  | Op.hbTick now => (send_heartbeat_tick s now).1
  | Op.warnArrive msg => (warning_arrival s msg).1
  | Op.modeArrive msg => (mode_arrival s msg).1
  | Op.statusSend now => (send_status_message s now).1

/-- Run a sequence of operations from a state. -/
def run (s : VState) (ops : List Op) : VState :=
  ops.foldl step s

/-- The driving mode is a valid element of {0, 1, 2}. -/
def ModeInv (s : VState) : Prop :=
  s.driving_mode = 0 ∨ s.driving_mode = 1 ∨ s.driving_mode = 2

instance (s : VState) : Decidable (ModeInv s) := by
  unfold ModeInv; infer_instance

/-- Run a sequence of sensed samples through the `process_frame` loop body,
accumulating published messages and console lines.  The mode-0 and mode-2
paths never read the clock, so the tick time is fixed at 0. -/
def runSamples (s : VState) (samples : List Bool) : Eff :=
  samples.foldl (fun r b => seqE r (fun st => process_sample st b 0)) (s, [], [])

theorem seqE_fst (r : Eff) (f : VState → Eff) : (seqE r f).1 = (f r.1).1 := rfl

theorem log_event_mode (s : VState) (m : String) :
    (log_event s m).1.driving_mode = s.driving_mode := rfl

/-- No operation other than a validated `set_driving_mode` writes the
`driving_mode` field. -/
theorem step_driving_mode (s : VState) (op : Op) :
    (step s op).driving_mode = s.driving_mode ∨
      ∃ m now, op = Op.setMode m now ∧ (m = 0 ∨ m = 1 ∨ m = 2) ∧
        (step s op).driving_mode = m := by
  cases op with
  | setMode m now =>
    by_cases hv : m = 0 ∨ m = 1 ∨ m = 2
    · exact Or.inr ⟨m, now, rfl, hv, by simp [step, set_driving_mode, hv, seqE, log_event]⟩
    · exact Or.inl (by simp [step, set_driving_mode, hv])
  | sample b now =>
    refine Or.inl ?_
    simp only [step, process_sample, handle_driving_mode, seqE, log_event,
      send_warning_message, turn_on_brake_lights, turn_off_brake_lights]
    repeat' split
    all_goals rfl
  | hbTick now =>
    refine Or.inl ?_
    simp only [step, send_heartbeat_tick, seqE, log_event]
    repeat' split
    all_goals rfl
  | warnArrive msg =>
    refine Or.inl ?_
    simp only [step, warning_arrival, handle_warning_message, send_warning_message,
      turn_on_brake_lights, seqE, log_event]
    repeat' split
    all_goals rfl
  | modeArrive msg =>
    refine Or.inl ?_
    simp only [step, mode_arrival, log_event]
    repeat' split
    all_goals rfl
  | statusSend now =>
    exact Or.inl (by simp [step, send_status_message, seqE, log_event])

theorem step_ModeInv (s : VState) (op : Op) (h : ModeInv s) : ModeInv (step s op) := by
  rcases step_driving_mode s op with heq | ⟨m, now, _, hv, heq⟩
  · unfold ModeInv at h ⊢; rw [heq]; exact h
  · unfold ModeInv; rw [heq]; exact hv

theorem run_ModeInv (s : VState) (ops : List Op) (h : ModeInv s) : ModeInv (run s ops) := by
  induction ops generalizing s with
  | nil => exact h
  | cons op ops ih => exact ih _ (step_ModeInv s op h)

theorem ModeInv_lookup (s : VState) (h : ModeInv s) :
    (show_status_lookup s).isSome = true := by
  rcases h with h | h | h <;> simp [show_status_lookup, mode_names, h]

/-- Claim C1: for every received WarningMessage whose vehicle_id differs from
the local VehicleIdentity, if the current driving mode is MEMBER (2), the
dispatcher turns the brake on and publishes exactly one relayed
WarningMessage whose description is "Warning relayed" and whose vehicle_id
is the local vehicle's identity. -/
theorem C1_member_relays_warning (s : VState) (msg : warning_t)
    (hid : msg.vehicle_id ≠ s.vehicle_id) (hmode : s.driving_mode = 2) :
    (warning_arrival s msg).1.brake_lights_on = true ∧
    (warning_arrival s msg).2.1 =
      [("WARNING", Msg.warning
        { timestamp := msg.timestamp
          vehicle_id := s.vehicle_id
          danger_detected := true
          description := "Warning relayed" })] := by
  simp only [warning_arrival, handle_warning_message, send_warning_message,
    turn_on_brake_lights, seqE, log_event]
  by_cases hb : s.brake_lights_on <;> simp [hid, hmode, hb]

theorem C1_witness :
    (warning_arrival { initState 1 with driving_mode := 2 }
      { timestamp := 7, vehicle_id := 2, danger_detected := true,
        description := "Motion detected" }).1.brake_lights_on = true ∧
    (warning_arrival { initState 1 with driving_mode := 2 }
      { timestamp := 7, vehicle_id := 2, danger_detected := true,
        description := "Motion detected" }).2.1 =
      [("WARNING", Msg.warning
        { timestamp := 7
          vehicle_id := 1
          danger_detected := true
          description := "Warning relayed" })] :=
  C1_member_relays_warning { initState 1 with driving_mode := 2 }
    { timestamp := 7, vehicle_id := 2, danger_detected := true,
      description := "Motion detected" } (by decide) rfl

/-- Claim C2: for every valid mode value m in {0,1,2}, `set_driving_mode m`
updates the driving mode to exactly m and publishes exactly one
ModeChangeMessage whose mode_description follows the fixed mapping
0 → "Single Vehicle", 1 → "Head in Convoy", 2 → "In Convoy".  (The publish
is sequenced directly after the mode-field update in the definition of
`set_driving_mode`, mirroring the statement order of the source.) -/
theorem C2_setMode_valid (s : VState) (m now : Int)
    (h : m = 0 ∨ m = 1 ∨ m = 2) :
    (set_driving_mode s m now).1.driving_mode = m ∧
    (set_driving_mode s m now).2.1 =
      [("MODE", Msg.mode
        { timestamp := now
          vehicle_id := s.vehicle_id
          mode := m
          mode_description :=
            if m = 0 then "Single Vehicle"
            else if m = 1 then "Head in Convoy"
            else "In Convoy" })] := by
  rcases h with h | h | h <;> subst h <;>
    simp [set_driving_mode, seqE, log_event, mode_names]

theorem C2_witness :
    (set_driving_mode (initState 1) 2 9).1.driving_mode = 2 ∧
    (set_driving_mode (initState 1) 2 9).2.1 =
      [("MODE", Msg.mode
        { timestamp := 9
          vehicle_id := 1
          mode := 2
          mode_description := "In Convoy" })] :=
  C2_setMode_valid (initState 1) 2 9 (by decide)

/-- Claim C3: for every mode value outside {0,1,2}, `set_driving_mode` leaves
the whole shared state unchanged, publishes nothing, appends no log entry,
and only prints the invalid-mode report. -/
theorem C3_setMode_invalid (s : VState) (m now : Int)
    (h : ¬(m = 0 ∨ m = 1 ∨ m = 2)) :
    set_driving_mode s m now = (s, [], [s!"Invalid driving mode: {m}"]) := by
  simp [set_driving_mode, h]

theorem C3_witness :
    set_driving_mode (initState 1) 5 9 = (initState 1, [], ["Invalid driving mode: 5"]) :=
  C3_setMode_invalid (initState 1) 5 9 (by decide)

/-- Claim C4: an inbound WarningMessage or ModeChangeMessage whose vehicle_id
equals the local identity is dropped: the state (including the brake flag
and the log) is unchanged and nothing is published or printed. -/
theorem C4_self_messages_dropped (s : VState) (w : warning_t) (m : mode_t)
    (hw : w.vehicle_id = s.vehicle_id) (hm : m.vehicle_id = s.vehicle_id) :
    warning_arrival s w = (s, [], []) ∧ mode_arrival s m = (s, [], []) := by
  constructor
  · simp [warning_arrival, hw]
  · simp [mode_arrival, hm]

theorem C4_witness :
    warning_arrival (initState 1)
      { timestamp := 7, vehicle_id := 1, danger_detected := true,
        description := "Motion detected" } = (initState 1, [], []) ∧
    mode_arrival (initState 1)
      { timestamp := 7, vehicle_id := 1, mode := 2,
        mode_description := "In Convoy" } = (initState 1, [], []) :=
  C4_self_messages_dropped (initState 1)
    { timestamp := 7, vehicle_id := 1, danger_detected := true,
      description := "Motion detected" }
    { timestamp := 7, vehicle_id := 1, mode := 2, mode_description := "In Convoy" }
    rfl rfl

/-- Claim C5: a heartbeat tick publishes a HeartbeatMessage carrying the
local vehicle identity and the current timestamp exactly when the driving
mode is HEAD (1) or MEMBER (2); in SINGLE (0) mode a tick publishes nothing,
logs nothing and prints nothing. -/
theorem C5_heartbeat_iff_convoy (s : VState) (now : Int) :
    ((send_heartbeat_tick s now).2.1 =
        [("HEARTBEAT", Msg.heartbeat { timestamp := now, vehicle_id := s.vehicle_id })] ↔
      (s.driving_mode = 1 ∨ s.driving_mode = 2)) ∧
    (s.driving_mode = 0 → send_heartbeat_tick s now = (s, [], [])) := by
  by_cases h : s.driving_mode = 1 ∨ s.driving_mode = 2
  · refine ⟨iff_of_true ?_ h, fun h0 => ?_⟩
    · simp [send_heartbeat_tick, h, seqE, log_event]
    · rcases h with h1 | h2 <;> omega
  · refine ⟨iff_of_false ?_ h, fun h0 => ?_⟩
    · simp [send_heartbeat_tick, h, seqE, log_event]
    · simp [send_heartbeat_tick, h]

theorem C5_witness :
    send_heartbeat_tick (initState 1) 5 = (initState 1, [], []) :=
  (C5_heartbeat_iff_convoy (initState 1) 5).2 rfl

/-- Claim C6 counterexample: the claim says a brake flip appends exactly one
entry to the Event Log (`log_messages`).  Starting from the initial state
(brake off, empty log), `turn_on_brake_lights` flips the brake but appends
nothing to `log_messages` — the edge line goes to the console only. -/
theorem C6_counterexample :
    (turn_on_brake_lights (initState 1)).1.brake_lights_on = true ∧
    (turn_on_brake_lights (initState 1)).1.log_messages = [] := by
  constructor <;> rfl

/-- Claim C6 (amended): a brake request equal to the current BrakeState is a
no-op (no state change, no output); otherwise the request flips BrakeState
and prints exactly one "BRAKE LIGHTS ON"/"BRAKE LIGHTS OFF" console line
(timestamped in the source), appending nothing to the queryable Event Log;
a second identical request prints nothing, so consecutive identical requests
produce at most one such line. -/
theorem C6_brake_edge_triggered (s : VState) :
    (s.brake_lights_on = true → turn_on_brake_lights s = (s, [], [])) ∧
    (s.brake_lights_on = false →
      turn_on_brake_lights s =
        ({ s with brake_lights_on := true }, [], ["BRAKE LIGHTS ON"])) ∧
    (s.brake_lights_on = false → turn_off_brake_lights s = (s, [], [])) ∧
    (s.brake_lights_on = true →
      turn_off_brake_lights s =
        ({ s with brake_lights_on := false }, [], ["BRAKE LIGHTS OFF"])) ∧
    (turn_on_brake_lights s).1.log_messages = s.log_messages ∧
    (turn_off_brake_lights s).1.log_messages = s.log_messages ∧
    (turn_on_brake_lights (turn_on_brake_lights s).1).2.2 = [] ∧
    (turn_off_brake_lights (turn_off_brake_lights s).1).2.2 = [] := by
  by_cases hb : s.brake_lights_on <;>
    simp [turn_on_brake_lights, turn_off_brake_lights, hb]

theorem C6_witness :
    turn_on_brake_lights (initState 1) =
      ({ initState 1 with brake_lights_on := true }, [], ["BRAKE LIGHTS ON"]) :=
  (C6_brake_edge_triggered (initState 1)).2.1 rfl

/-- Claim C7: in SINGLE mode, starting with brake lights off, the motion
sample sequence [true, true, false] produces exactly one "BRAKE LIGHTS ON"
edge line and exactly one "BRAKE LIGHTS OFF" edge line on the console (no
duplicate edge output), and publishes no message at all (in particular zero
WarningMessages). -/
theorem C7_single_mode_edges :
    (runSamples (initState 1) [true, true, false]).2.2.count "BRAKE LIGHTS ON" = 1 ∧
    (runSamples (initState 1) [true, true, false]).2.2.count "BRAKE LIGHTS OFF" = 1 ∧
    (runSamples (initState 1) [true, true, false]).2.1 = [] := by
  refine ⟨?_, ?_, rfl⟩ <;> rfl

/-- Claim C8 counterexample: the claim says that in MEMBER mode processing a
sample changes no shared state at all.  In MEMBER mode with
`motion_detected = false`, processing the sample `true` changes the shared
`motion_detected` field from false to true. -/
theorem C8_counterexample :
    ({ initState 1 with driving_mode := 2 } : VState).motion_detected = false ∧
    (process_sample { initState 1 with driving_mode := 2 } true 0).1.motion_detected
      = true := by
  constructor <;> rfl

/-- Claim C8 (amended): in MEMBER mode (mode 2) a locally sensed sample is
ignored for actuation: processing it only stores the sample in the
last-motion field (`motion_detected`), leaving BrakeState, the driving mode,
the running flag and the Event Log unchanged, and publishes no message and
prints nothing; braking in this mode is driven only by received
WarningMessages. -/
theorem C8_member_ignores_sample (s : VState) (sample : Bool) (now : Int)
    (h : s.driving_mode = 2) :
    process_sample s sample now = ({ s with motion_detected := sample }, [], []) := by
  simp [process_sample, handle_driving_mode, h]

theorem C8_witness :
    process_sample { initState 1 with driving_mode := 2 } true 0 =
      ({ initState 1 with driving_mode := 2, motion_detected := true }, [], []) :=
  C8_member_ignores_sample { initState 1 with driving_mode := 2 } true 0 rfl

/-- Claim C10: from the initial state (mode 0), after any sequence of
operations (mode changes, sensed samples, heartbeat ticks, warning and mode
arrivals, status sends) the driving mode is an element of {0, 1, 2}, so the
`mode_names[self.driving_mode]` lookup performed by `show_status` is in
range.  (`set_driving_mode` indexes `mode_names` only under its own
membership guard `mode in [0, 1, 2]`, so its lookup is in range as well.) -/
theorem C10_mode_invariant (vid : Int) (ops : List Op) :
    ModeInv (run (initState vid) ops) ∧
    (show_status_lookup (run (initState vid) ops)).isSome = true := by
  have h : ModeInv (run (initState vid) ops) :=
    run_ModeInv (initState vid) ops (Or.inl rfl)
  exact ⟨h, ModeInv_lookup _ h⟩
